import Mathlib

/-!
LocalCast client — verification of the spec against `src/src/App.jsx`
and the H.264 `ScreenView` variant (second component of the unnamed
source file).

Shallow embedding of the React client: the socket event handlers of `App`
become a step function on an explicit `AppState`; the audio scheduling code
of `playAudioChunk` (App.jsx lines 200–273) becomes a pure function on a
`PlaybackClock`; the H.264 `ScreenView` effects become a step function on a
`ViewState` driven by prop snapshots.  Times are rationals (seconds on the
device clock for audio, integer milliseconds from `Date.now()` for fps).
-/

namespace LocalCast

/-! ## Audio playback scheduling (App.jsx, `playAudioChunk`, lines 200–273) -/

/-- Constant `BUFFER_TIME = 0.05` (App.jsx line 244): the 50 ms initial jitter
buffer. -/
def BUFFER_TIME : ℚ := 5 / 100

/-- The `0.2` literal at App.jsx line 257 (200 ms drift ceiling); the spec
names this constant `MAX_DRIFT`. -/
def MAX_DRIFT : ℚ := 2 / 10

/-- The scheduler-owned clock: `nextPlayTimeRef.current` and
`audioInitializedRef.current` (App.jsx lines 39, 45). -/
structure PlaybackClock where
  nextPlayTime : ℚ
  audioInitialized : Bool
deriving DecidableEq, Repr

/-- Result of one scheduling step: the `startTime` passed to
`source.start(startTime)` and the updated clock refs. -/
structure SchedResult where
  startTime : ℚ
  clock : PlaybackClock
deriving DecidableEq, Repr

/-- App.jsx lines 243–268, the timing core of `playAudioChunk`:

```js
let startTime = nextPlayTimeRef.current
if (!audioInitializedRef.current || startTime < currentTime) {
  startTime = currentTime + BUFFER_TIME
  audioInitializedRef.current = true
}
if (startTime > currentTime + 0.2) {
  startTime = currentTime + BUFFER_TIME
}
source.start(startTime)
nextPlayTimeRef.current = startTime + audioBuffer.duration
```

`currentTime` is `ctx.currentTime` at the call, `duration` is
`audioBuffer.duration` (= frameCount / sampleRate). -/
def scheduleChunk (currentTime duration : ℚ) (c : PlaybackClock) : SchedResult :=
  let init0 := c.audioInitialized
  let startTime0 := c.nextPlayTime
  let firstIf : ℚ × Bool :=
    if init0 = false ∨ startTime0 < currentTime then
      (currentTime + BUFFER_TIME, true)
    else
      (startTime0, init0)
  let startTime1 := firstIf.1
  let startTime2 :=
    if startTime1 > currentTime + MAX_DRIFT then currentTime + BUFFER_TIME
    else startTime1
  { startTime := startTime2,
    clock := { nextPlayTime := startTime2 + duration, audioInitialized := firstIf.2 } }

/-- Fold `scheduleChunk` over a list of `(currentTime, duration)` pairs:
the clock after a whole sequence of chunks has been scheduled. -/
def scheduleTrace (c : PlaybackClock) : List (ℚ × ℚ) → PlaybackClock
  | [] => c
  | (now, d) :: rest => scheduleTrace (scheduleChunk now d c).clock rest

/-! ## PCM decode (App.jsx lines 209–241) -/

/-- Model of `new Int16Array(bytes.buffer)`: reinterpret the decoded bytes as 16-bit
signed little-endian samples.  (On an odd-length buffer the constructor
throws; `playAudioChunk` guards that case via its `try/catch`.) -/
def bytesToInt16 : List ℕ → List ℤ
  | [] => []
  | [_] => []
  | b0 :: b1 :: rest =>
      (let v : ℤ := (b0 : ℤ) + 256 * (b1 : ℤ)
       if v < 32768 then v else v - 65536) :: bytesToInt16 rest

/-- Normalization `float32[i] = int16[i] / 32768.0` (App.jsx lines 219–222); exact in ℚ. -/
def toFloat32 (int16 : List ℤ) : List ℚ :=
  int16.map (fun v => (v : ℚ) / 32768)

/-- The payload of a socket `audio` event, after the base64 decode
(App.jsx lines 209–215): raw bytes plus `data.channels` / `data.sampleRate`
(`0` stands for an absent/zero field, defaulted by `|| 2` and `|| 44100`). -/
structure AudioData where
  data : List ℕ
  channels : ℕ
  sampleRate : ℕ
deriving DecidableEq, Repr

/-! ## Session / app state (App.jsx, `App` component) -/

/-- States of an `AudioContext` (the `state` property). -/
inductive CtxState
  | suspended
  | running
  | closed
deriving DecidableEq, Repr

/-- The model of an `AudioContext` held in `audioContextRef`: `id` is the
object's identity (fresh per `new AudioContext(...)`), `state` its
device-reported state. -/
structure AudioContextModel where
  id : ℕ
  state : CtxState
deriving DecidableEq, Repr

/-- Contents of `frameInfo` / `frameInfoRef` (App.jsx lines 19, 49). -/
structure FrameInfo where
  width : ℕ
  height : ℕ
  size : ℕ
deriving DecidableEq, Repr

/-- The throughput counter `fpsCounterRef.current` (App.jsx line 48);
`lastTime` is a `Date.now()` value in ms. -/
structure FpsCounter where
  count : ℕ
  lastTime : ℤ
deriving DecidableEq, Repr

/-- A log entry built by `addMessage` (App.jsx lines 194–197). -/
structure Message where
  text : String
  type : String
  timestamp : String
deriving DecidableEq, Repr

/-- Model of `arr.slice(-50)`: the last (up to) 50 elements. -/
def sliceLast50 {α : Type} (l : List α) : List α :=
  l.drop (l.length - 50)

/-- App.jsx lines 194–197:
`setMessages(prev => [...prev, { text, type, timestamp }].slice(-50))`
(`timestamp` is `new Date().toLocaleTimeString('ja-JP')` at the call). -/
def addMessage (prev : List Message) (text type timestamp : String) : List Message :=
  sliceLast50 (prev ++ [{ text := text, type := type, timestamp := timestamp }])

/-- JS `Math.round` on a (nonnegative) rational: half rounds up. -/
def jsRound (q : ℚ) : ℤ := ⌊q + 1 / 2⌋

/-- The client state of the `App` component.  React state hooks and the
ref mirrors kept in sync with them (`clientIdRef`, `currentSharerIdRef`,
`isAudioEnabledRef`) are modelled as one field each.  `clock` packages
`nextPlayTimeRef` / `audioInitializedRef`.  `scheduled` is the observable
history of `source.start(startTime)` calls (ghost field: the audio buffers
handed to the output device, in order, by start time). -/
structure AppState where
  isConnected : Bool
  isSharing : Bool
  currentFrame : Option String
  clientCount : ℕ
  clientId : String
  fps : ℤ
  messages : List Message
  preset : String
  frameInfo : FrameInfo
  showSourcePicker : Bool
  sources : List String
  selectedSource : Option String
  isLoadingSources : Bool
  currentSharerId : Option String
  isHost : Bool
  isAudioEnabled : Bool
  audioAvailable : Bool
  audioUnlocked : Bool
  audioContext : Option AudioContextModel
  clock : PlaybackClock
  fpsCounter : FpsCounter
  frameInfoRef : FrameInfo
  scheduled : List ℚ
deriving DecidableEq, Repr

/-- The `useState` initial values of `App` (App.jsx lines 10–49);
`mountTime` is the `Date.now()` captured in the `fpsCounterRef`
initializer. -/
def initialAppState (mountTime : ℤ) : AppState :=
  { isConnected := false
    isSharing := false
    currentFrame := none
    clientCount := 0
    clientId := ""
    fps := 0
    messages := []
    preset := "hd60"
    frameInfo := { width := 0, height := 0, size := 0 }
    showSourcePicker := false
    sources := []
    selectedSource := none
    isLoadingSources := false
    currentSharerId := none
    isHost := false
    isAudioEnabled := true
    audioAvailable := false
    audioUnlocked := false
    audioContext := none
    clock := { nextPlayTime := 0, audioInitialized := false }
    fpsCounter := { count := 0, lastTime := mountTime }
    frameInfoRef := { width := 0, height := 0, size := 0 }
    scheduled := [] }

/-- App.jsx lines 200–273, `playAudioChunk`, in full: the gating on the
`AudioContext` state, the base64/PCM decode, the buffer construction and
the scheduling step.  `currentTime` is `ctx.currentTime` at the call. -/
def playAudioChunk (currentTime : ℚ) (data : AudioData) (s : AppState) : AppState :=
  match s.audioContext with
  | none => s
  | some ctx =>
    if ctx.state ≠ CtxState.running then s
    else if data.data.length % 2 ≠ 0 then s
    else
      let int16 := bytesToInt16 data.data
      let float32 := toFloat32 int16
      let channels := if data.channels = 0 then 2 else data.channels
      let sampleRate := if data.sampleRate = 0 then 44100 else data.sampleRate
      let frameCount := float32.length / channels
      if frameCount = 0 then s
      else
        let duration : ℚ := (frameCount : ℚ) / (sampleRate : ℚ)
        let r := scheduleChunk currentTime duration s.clock
        { s with clock := r.clock, scheduled := s.scheduled ++ [r.startTime] }

/-- App.jsx lines 105–129, the `newSocket.on('frame', ...)` handler.
`now` is the `Date.now()` read at line 119. -/
def onFrame (image : String) (width height size : ℕ) (now : ℤ) (s : AppState) : AppState :=
  let s1 := { s with
    currentFrame := some ("data:image/jpeg;base64," ++ image)
    frameInfoRef := { width := width, height := height, size := size } }
  let count : ℕ := s1.fpsCounter.count + 1
  let elapsed : ℤ := now - s1.fpsCounter.lastTime
  if elapsed ≥ 1000 then
    { s1 with
      fps := jsRound ((count : ℚ) * 1000 / (elapsed : ℚ))
      frameInfo := s1.frameInfoRef
      fpsCounter := { count := 0, lastTime := now } }
  else
    { s1 with fpsCounter := { count := count, lastTime := s1.fpsCounter.lastTime } }

/-- App.jsx lines 167–172, the `newSocket.on('audio', ...)` handler:

```js
if (!isAudioEnabledRef.current) return
if (currentSharerIdRef.current === clientIdRef.current) return
playAudioChunkRef.current?.(data)
```

The sharer/self comparison reads the live refs (re-evaluated per chunk).
`currentSharerIdRef` is `null` or a string; JS `null === s` is false for a
string `s`, so the guard is `currentSharerId = some clientId`. -/
def onAudio (currentTime : ℚ) (data : AudioData) (s : AppState) : AppState :=
  if s.isAudioEnabled = false then s
  else if s.currentSharerId = some s.clientId then s
  else playAudioChunk currentTime data s

/-- The inbound socket events handled in the `useEffect` of `App`
(App.jsx lines 66–186), each carrying its wire payload.  `frame` carries
the `Date.now()` read at handling time; `audio` carries `ctx.currentTime`
at handling time. -/
inductive SocketEvent
  | connect
  | disconnect
  | connected (client_id : String) (client_count : ℕ) (current_sharer : Option String)
      (audio_available : Bool) (is_host : Bool) (is_sharing : Bool)
  | client_count_updated (count : ℕ)
  | sources_list (sources : List String)
  | source_selected (title : String)
  | frame (image : String) (width height size : ℕ) (now : ℤ)
  | stats (fps : ℤ)
  | sharing_started (sharer_id : String) (target : String)
  | sharing_stopped
  | sharing_taken_over
  | error (message : String)
  | settings_changed (resolution_limit : String) (fps : ℤ)
  | audio (data : AudioData) (currentTime : ℚ)
  | audio_started
  | audio_stopped
  | audio_error (message : String)
deriving DecidableEq, Repr

/-- Dispatch one socket event exactly as the handlers registered at
App.jsx lines 66–186 do.  `ts` is the `toLocaleTimeString` value used by
`addMessage` at handling time. -/
def handleEvent (ts : String) (e : SocketEvent) (s : AppState) : AppState :=
  match e with
  | .connect => { s with isConnected := true }
  | .disconnect => { s with isConnected := false, isSharing := false }
  | .connected cid cnt sharer audioAvail host sharing =>
      let s1 := { s with
        clientId := cid
        clientCount := cnt
        currentSharerId := sharer
        audioAvailable := audioAvail
        isHost := host }
      let s2 := if sharing then { s1 with isSharing := true } else s1
      let text := if host then "接続しました (ホスト)" else "接続しました (クライアント)"
      { s2 with messages := addMessage s2.messages text "info" ts }
  | .client_count_updated n => { s with clientCount := n }
  | .sources_list srcs => { s with sources := srcs, isLoadingSources := false }
  | .source_selected title =>
      { s with selectedSource := some title,
               messages := addMessage s.messages ("選択: " ++ title) "info" ts }
  | .frame image w h sz now => onFrame image w h sz now s
  | .stats f => if f ≠ 0 then { s with fps := f } else s
  | .sharing_started sharer target =>
      { s with
        isSharing := true
        showSourcePicker := false
        currentSharerId := some sharer
        currentFrame := none
        messages := addMessage s.messages ("共有開始: " ++ target) "success" ts }
  | .sharing_stopped =>
      { s with
        isSharing := false
        currentFrame := none
        currentSharerId := none
        messages := addMessage s.messages "共有停止" "warning" ts }
  | .sharing_taken_over =>
      { s with messages := addMessage s.messages "他のユーザーが共有を開始しました" "info" ts }
  | .error msg => { s with messages := addMessage s.messages msg "error" ts }
  | .settings_changed res f =>
      let text := "設定変更: " ++ res ++ " " ++ toString f ++ "fps"
      { s with messages := addMessage s.messages text "info" ts }
  | .audio data currentTime => onAudio currentTime data s
  | .audio_started =>
      { s with messages := addMessage s.messages "音声共有開始" "success" ts }
  | .audio_stopped =>
      { s with messages := addMessage s.messages "音声共有停止" "warning" ts }
  | .audio_error msg => { s with messages := addMessage s.messages msg "error" ts }

/-- Process a list of socket events in order (`ts` fixed for brevity; no
handler reads the timestamp back). -/
def runEvents (ts : String) (s : AppState) (es : List SocketEvent) : AppState :=
  es.foldl (fun acc e => handleEvent ts e acc) s

/-- The payload of one socket `frame` event together with the `Date.now()`
value read while handling it (App.jsx line 119). -/
structure FrameEv where
  image : String
  width : ℕ
  height : ℕ
  size : ℕ
  now : ℤ
deriving DecidableEq, Repr

/-- Process a run of consecutive `frame` events. -/
def runFrames (s : AppState) (evs : List FrameEv) : AppState :=
  evs.foldl (fun acc e => onFrame e.image e.width e.height e.size e.now acc) s

/-! ## Output device activation gate (App.jsx, `unlockAudio`, lines 281–316) -/

/-- Outcome of the asynchronous `ctx.resume()` call: either the promise
resolves (and `ctx.state` as re-read inside the `.then` callback is `st`),
or it rejects (the `.catch` path, which only logs). -/
inductive ResumeOutcome
  | resolved (st : CtxState)
  | rejected
deriving DecidableEq, Repr

/-- App.jsx lines 281–316, `unlockAudio`:

```js
if (!audioContextRef.current) {
  audioContextRef.current = new AudioContext({...})
  nextPlayTimeRef.current = 0
  audioBufferQueueRef.current = []
  audioInitializedRef.current = false
}
const ctx = audioContextRef.current
if (ctx.state === 'suspended') {
  ctx.resume().then(() => { if (ctx.state === 'running') setAudioUnlocked(true) })
    .catch(e => ...)
} else if (ctx.state === 'running') {
  setAudioUnlocked(true)
}
```

`freshId`/`freshState` describe the `AudioContext` a `new` would produce
(identity and device-chosen initial state); `resume` is the device's
response to `ctx.resume()`.  The `.then` callback is modelled as running to
completion here (single-threaded cooperative model; nothing else in the
claim interleaves). -/
def unlockAudio (freshId : ℕ) (freshState : CtxState) (resume : ResumeOutcome)
    (s : AppState) : AppState :=
  let s1 :=
    match s.audioContext with
    | none =>
        { s with
          audioContext := some { id := freshId, state := freshState }
          clock := { nextPlayTime := 0, audioInitialized := false } }
    | some _ => s
  match s1.audioContext with
  | none => s1
  | some ctx =>
    if ctx.state = CtxState.suspended then
      match resume with
      | .resolved st =>
          let s2 := { s1 with audioContext := some { ctx with state := st } }
          if st = CtxState.running then { s2 with audioUnlocked := true } else s2
      | .rejected => s1
    else if ctx.state = CtxState.running then
      { s1 with audioUnlocked := true }
    else s1

end LocalCast

namespace LocalCast.H264

/-!
Model of the H.264 `ScreenView` (src/unnamed/part_000, second component,
lines 149–327).

The component is driven by prop snapshots `(isSharing, currentFrame)`.
React re-runs an effect after a commit exactly when one of its declared
dependencies changed under `Object.is`; since every socket `frame` event
builds a fresh object, `currentFrame` is modelled with an identity `fid`.
On mount, every effect runs.  Effects run in declaration order:
jmuxer init (lines 177–201, deps `[isSharing, currentFrame]`), cleanup
(lines 204–216, deps `[isSharing]`), frame feed (lines 219–239, deps
`[currentFrame]`).
-/

/-- The `currentFrame` prop of the H.264 variant: `fid` is the object's
identity, `image` the base64 access-unit payload (`currentFrame.image`). -/
structure Frame where
  fid : ℕ
  image : String
deriving DecidableEq, Repr

/-- One prop snapshot seen by a render of `ScreenView`. -/
structure Props where
  isSharing : Bool
  currentFrame : Option Frame
deriving DecidableEq, Repr

/-- Component-local state: `jmuxer` is `jmuxerRef.current` (the id of the
live `JMuxer` instance, fresh per `new JMuxer(...)`), `feedLog` the history
of `jmuxerRef.current.feed({video: bytes})` calls as (instance, payload)
pairs in call order, `destroyedLog` the instances `destroy()`ed so far. -/
structure ViewState where
  jmuxer : Option ℕ
  nextJmuxerId : ℕ
  isH264Ready : Bool
  frameCount : ℕ
  feedLog : List (ℕ × String)
  destroyedLog : List ℕ
deriving DecidableEq, Repr

/-- Ref/state initial values (lines 169–172). -/
def initialViewState : ViewState :=
  { jmuxer := none
    nextJmuxerId := 0
    isH264Ready := false
    frameCount := 0
    feedLog := []
    destroyedLog := [] }

/-- Lines 177–201: lazy jmuxer creation.  `videoRef.current` is non-null
exactly when `currentFrame` is truthy (the `<video>` is rendered under
`currentFrame && ...`), so the ref conjunct collapses into
`currentFrame.isSome`.  `createOk = false` is the `catch` path of a
throwing `new JMuxer` (logged, state untouched). -/
def initEffect (p : Props) (createOk : Bool) (s : ViewState) : ViewState :=
  if p.isSharing = true ∧ p.currentFrame.isSome = true ∧ s.jmuxer = none then
    if createOk then
      { s with
        jmuxer := some s.nextJmuxerId
        nextJmuxerId := s.nextJmuxerId + 1
        isH264Ready := true }
    else s
  else s

/-- Lines 204–216: destroy the decoder whenever the component is not
sharing. -/
def cleanupEffect (p : Props) (s : ViewState) : ViewState :=
  if p.isSharing = false then
    { s with
      jmuxer := none
      destroyedLog := s.destroyedLog ++ s.jmuxer.toList
      isH264Ready := false
      frameCount := 0 }
  else s

/-- Lines 219–239: feed the current frame's bytes into the live decoder
(no-op when `currentFrame` or its `image` is falsy, or no decoder is
live). -/
def feedEffect (p : Props) (s : ViewState) : ViewState :=
  match p.currentFrame with
  | none => s
  | some f =>
    if f.image = "" then s
    else
      match s.jmuxer with
      | none => s
      | some j =>
          { s with
            feedLog := s.feedLog ++ [(j, f.image)]
            frameCount := s.frameCount + 1 }

/-- All three effects run at mount, in declaration order. -/
def mountStep (p : Props) (createOk : Bool) (s : ViewState) : ViewState :=
  feedEffect p (cleanupEffect p (initEffect p createOk s))

/-- One re-render with new props: each effect re-runs iff one of its
dependencies changed (`Object.is` comparison). -/
def renderStep (prev next : Props) (createOk : Bool) (s : ViewState) : ViewState :=
  let s1 :=
    if prev.isSharing ≠ next.isSharing ∨ prev.currentFrame ≠ next.currentFrame
    then initEffect next createOk s else s
  let s2 := if prev.isSharing ≠ next.isSharing then cleanupEffect next s1 else s1
  if prev.currentFrame ≠ next.currentFrame then feedEffect next s2 else s2

/-- Mount with props `p0`, then apply a list of prop updates (each paired
with whether a `new JMuxer` attempted during it would succeed). -/
def runView (p0 : Props) (ok0 : Bool) (updates : List (Props × Bool)) : ViewState :=
  (updates.foldl
    (fun (acc : ViewState × Props) pu => (renderStep acc.2 pu.1 pu.2 acc.1, pu.1))
    (mountStep p0 ok0 initialViewState, p0)).1

/-- Decoder-ownership invariant: the live instance was allocated, has never
been destroyed, and every destroyed instance was allocated. -/
def OwnershipInv (s : ViewState) : Prop :=
  (∀ j, s.jmuxer = some j → j < s.nextJmuxerId ∧ j ∉ s.destroyedLog) ∧
  (∀ j ∈ s.destroyedLog, j < s.nextJmuxerId)

end LocalCast.H264

namespace LocalCast

/-! ## Concrete sample inputs used by witnesses and counterexamples -/

/-- A connected viewer state in which this participant is the active
sharer (`currentSharerId === clientId`), with a running audio pipeline. -/
def selfSharerState : AppState :=
  { initialAppState 0 with
      isConnected := true
      isSharing := true
      clientId := "abc123"
      currentSharerId := some "abc123"
      audioContext := some { id := 0, state := CtxState.running }
      audioUnlocked := true }

/-- A small audio chunk: 2 PCM16 frames, stereo, 44.1 kHz. -/
def sampleChunk : AudioData :=
  { data := [0, 0, 0, 0, 0, 0, 0, 0], channels := 2, sampleRate := 44100 }

/-- Scenario B extended with a late duplicate: share starts, frame `P1`
arrives, sharing stops, and the same payload arrives again. -/
def c3Trace : List SocketEvent :=
  [SocketEvent.sharing_started "abc123" "Monitor 1",
   SocketEvent.frame "P1" 1920 1080 1000 0,
   SocketEvent.sharing_stopped,
   SocketEvent.frame "P1" 1920 1080 1000 40]

/-- A mid-session state: a frame on screen and a warm audio clock. -/
def c4State : AppState :=
  { initialAppState 0 with
      isConnected := true
      isSharing := true
      currentFrame := some "data:image/jpeg;base64,P1"
      clock := { nextPlayTime := 5, audioInitialized := true } }

/-- Four 50 ms chunks all arriving at device time 0: after them the clock
sits 250 ms ahead of the device, past the 200 ms drift ceiling. -/
def backlogTrace : List (ℚ × ℚ) :=
  [(0, 1 / 20), (0, 1 / 20), (0, 1 / 20), (0, 1 / 20)]

end LocalCast

namespace LocalCast

/-! ## Theorems -/

/-- Closed-form characterization of one scheduling step of
`playAudioChunk` (App.jsx lines 243–268): the two source `if`s collapse to
a three-way case split because `BUFFER_TIME < MAX_DRIFT` keeps the second
`if` from firing after the first one did. -/
theorem scheduleChunk_eq (now d : ℚ) (c : PlaybackClock) :
    scheduleChunk now d c =
      if c.audioInitialized = false ∨ c.nextPlayTime < now then
        { startTime := now + BUFFER_TIME,
          clock := { nextPlayTime := now + BUFFER_TIME + d, audioInitialized := true } }
      else if now + MAX_DRIFT < c.nextPlayTime then
        { startTime := now + BUFFER_TIME,
          clock := { nextPlayTime := now + BUFFER_TIME + d,
                     audioInitialized := c.audioInitialized } }
      else
        { startTime := c.nextPlayTime,
          clock := { nextPlayTime := c.nextPlayTime + d,
                     audioInitialized := c.audioInitialized } } := by
  simp only [scheduleChunk]
  by_cases h1 : c.audioInitialized = false ∨ c.nextPlayTime < now
  · rw [if_pos h1, if_pos h1]
    have hbt : ¬ (now + BUFFER_TIME > now + MAX_DRIFT) := by
      unfold BUFFER_TIME MAX_DRIFT; intro h; linarith
    simp only [hbt, if_false]
  · rw [if_neg h1, if_neg h1]
    by_cases h2 : now + MAX_DRIFT < c.nextPlayTime
    · have h2' : (c.nextPlayTime, c.audioInitialized).1 > now + MAX_DRIFT := h2
      rw [if_pos h2, if_pos h2']
    · have h2' : ¬ ((c.nextPlayTime, c.audioInitialized).1 > now + MAX_DRIFT) := h2
      rw [if_neg h2, if_neg h2']

end LocalCast

namespace LocalCast

/-- C2: for every audio chunk that passes the gating checks, the scheduler
computes its start time exactly as the spec states: first-chunk-or-underrun
gives `t_now + BUFFER_TIME` and marks initialized; otherwise a clock more
than `MAX_DRIFT` ahead resyncs to `t_now + BUFFER_TIME`; otherwise the
chunk is appended at `nextPlayTime`; afterwards `nextPlayTime` becomes
`startTime + duration`.  For 20 ms chunks arriving at t = 0 s and 0.02 s on
a fresh clock, the first is scheduled at `deviceNow + 0.05` and the second
at `deviceNow + 0.07 = first start + 0.02`: no gap, no overlap. -/
theorem scheduler_start_time_formula (now d : ℚ) (c : PlaybackClock) :
    ((c.audioInitialized = false ∨ c.nextPlayTime < now →
        (scheduleChunk now d c).startTime = now + BUFFER_TIME ∧
        (scheduleChunk now d c).clock.audioInitialized = true) ∧
     (c.audioInitialized = true → now ≤ c.nextPlayTime →
        now + MAX_DRIFT < c.nextPlayTime →
        (scheduleChunk now d c).startTime = now + BUFFER_TIME) ∧
     (c.audioInitialized = true → now ≤ c.nextPlayTime →
        c.nextPlayTime ≤ now + MAX_DRIFT →
        (scheduleChunk now d c).startTime = c.nextPlayTime) ∧
     (scheduleChunk now d c).clock.nextPlayTime = (scheduleChunk now d c).startTime + d) ∧
    ((scheduleChunk 0 (1 / 50) { nextPlayTime := 0, audioInitialized := false }).startTime
        = 0 + BUFFER_TIME ∧
     (scheduleChunk (1 / 50) (1 / 50)
        (scheduleChunk 0 (1 / 50) { nextPlayTime := 0, audioInitialized := false }).clock).startTime
        = 0 + 7 / 100 ∧
     (scheduleChunk (1 / 50) (1 / 50)
        (scheduleChunk 0 (1 / 50) { nextPlayTime := 0, audioInitialized := false }).clock).startTime
        = (scheduleChunk 0 (1 / 50) { nextPlayTime := 0, audioInitialized := false }).startTime
          + 1 / 50) := by
  constructor
  · rw [scheduleChunk_eq]
    refine ⟨?_, ?_, ?_, ?_⟩
    · intro h1
      rw [if_pos h1]
      exact ⟨rfl, rfl⟩
    · intro hinit hle hdrift
      have h1 : ¬ (c.audioInitialized = false ∨ c.nextPlayTime < now) := by
        rintro (h | h)
        · rw [hinit] at h; cases h
        · linarith
      rw [if_neg h1, if_pos hdrift]
    · intro hinit hle hdrift
      have h1 : ¬ (c.audioInitialized = false ∨ c.nextPlayTime < now) := by
        rintro (h | h)
        · rw [hinit] at h; cases h
        · linarith
      have h2 : ¬ (now + MAX_DRIFT < c.nextPlayTime) := by linarith
      rw [if_neg h1, if_neg h2]
    · by_cases h1 : c.audioInitialized = false ∨ c.nextPlayTime < now
      · rw [if_pos h1]
      · rw [if_neg h1]
        by_cases h2 : now + MAX_DRIFT < c.nextPlayTime
        · rw [if_pos h2]
        · rw [if_neg h2]
  · have h1 : scheduleChunk 0 (1 / 50) { nextPlayTime := 0, audioInitialized := false } =
        { startTime := 0 + BUFFER_TIME,
          clock := { nextPlayTime := 0 + BUFFER_TIME + 1 / 50, audioInitialized := true } } := by
      rw [scheduleChunk_eq]; simp
    have h2 : scheduleChunk (1 / 50) (1 / 50)
        ({ nextPlayTime := 0 + BUFFER_TIME + 1 / 50, audioInitialized := true } : PlaybackClock) =
        { startTime := 0 + BUFFER_TIME + 1 / 50,
          clock := { nextPlayTime := 0 + BUFFER_TIME + 1 / 50 + 1 / 50,
                     audioInitialized := true } } := by
      rw [scheduleChunk_eq]
      norm_num [BUFFER_TIME, MAX_DRIFT]
    rw [h1]
    refine ⟨rfl, ?_, ?_⟩
    · rw [h2]; norm_num [BUFFER_TIME]
    · rw [h2]

/-- Witness for `scheduler_start_time_formula`: the first-chunk branch and
the timing of Scenario C, at a fresh clock and a 20 ms chunk. -/
theorem scheduler_start_time_formula_witness :
    (scheduleChunk 0 (1 / 50) { nextPlayTime := 0, audioInitialized := false }).startTime
      = 0 + BUFFER_TIME ∧
    (scheduleChunk 0 (1 / 50) { nextPlayTime := 0, audioInitialized := false }).clock.audioInitialized
      = true :=
  (scheduler_start_time_formula 0 (1 / 50)
    { nextPlayTime := 0, audioInitialized := false }).1.1 (Or.inl rfl)

end LocalCast

namespace LocalCast

/-- C1: a chunk arriving while the local identity equals the current
sharer identity is discarded unconditionally — the `audio` handler returns
before `playAudioChunk`, so the whole state (in particular the ghost
`scheduled` list of `source.start` calls) is untouched.  The guard reads
the live refs, so it is re-evaluated per chunk. -/
theorem self_echo_suppression (ts : String) (currentTime : ℚ) (data : AudioData)
    (s : AppState) (h : s.currentSharerId = some s.clientId) :
    handleEvent ts (SocketEvent.audio data currentTime) s = s ∧
    (handleEvent ts (SocketEvent.audio data currentTime) s).scheduled = s.scheduled := by
  have hmain : handleEvent ts (SocketEvent.audio data currentTime) s = s := by
    show onAudio currentTime data s = s
    unfold onAudio
    by_cases he : s.isAudioEnabled = false
    · rw [if_pos he]
    · rw [if_neg he, if_pos h]
  exact ⟨hmain, by rw [hmain]⟩

/-- Witness for `self_echo_suppression`: the sharer's own client, with a
running audio pipeline, receiving a stereo chunk. -/
theorem self_echo_suppression_witness :
    handleEvent "" (SocketEvent.audio sampleChunk 0) selfSharerState = selfSharerState ∧
    (handleEvent "" (SocketEvent.audio sampleChunk 0) selfSharerState).scheduled
      = selfSharerState.scheduled :=
  self_echo_suppression "" 0 sampleChunk selfSharerState rfl

/-- C3 (amended): `sharing_stopped` does clear the displayed frame, but
the `frame` handler stores its payload as the displayed frame
unconditionally — it never consults the sharing state, so a frame event
arriving after `sharing_stopped` (late duplicate included) becomes the
displayed frame again. -/
theorem stop_clears_frame_but_frame_handler_unconditional :
    (∀ ts s, (handleEvent ts SocketEvent.sharing_stopped s).currentFrame = none) ∧
    (∀ ts image w h sz now s,
      (handleEvent ts (SocketEvent.frame image w h sz now) s).currentFrame =
        some ("data:image/jpeg;base64," ++ image)) := by
  constructor
  · intro ts s; rfl
  · intro ts image w h sz now s
    show (onFrame image w h sz now s).currentFrame = _
    simp only [onFrame]
    split <;> rfl

/-- Counterexample to C3 as stated: after `sharing_started`, `frame P1`,
`sharing_stopped` the frame is cleared, yet the late duplicate of `P1`
re-enters `currentFrame`, contradicting "is not rendered and does not
become the displayed frame". -/
theorem late_frame_after_stop_counterexample :
    (runEvents "" (initialAppState 0) (c3Trace.take 3)).currentFrame = none ∧
    (runEvents "" (initialAppState 0) c3Trace).currentFrame =
      some "data:image/jpeg;base64,P1" := by
  exact ⟨rfl, rfl⟩

/-- C4 (amended): the `disconnect` handler resets `isConnected` and
`isSharing` only; the displayed frame and the audio playback clock are
left exactly as they were. -/
theorem disconnect_resets_connection_flags_only :
    ∀ ts s, (handleEvent ts SocketEvent.disconnect s).isConnected = false ∧
      (handleEvent ts SocketEvent.disconnect s).isSharing = false ∧
      (handleEvent ts SocketEvent.disconnect s).currentFrame = s.currentFrame ∧
      (handleEvent ts SocketEvent.disconnect s).clock = s.clock := by
  intro ts s
  exact ⟨rfl, rfl, rfl, rfl⟩

/-- Counterexample to C4 as stated: a disconnect in mid-session leaves the
stale frame displayed and the warm audio clock intact, contradicting
"clears the displayed frame and resets the audio playback clock". -/
theorem disconnect_cleanup_counterexample :
    (handleEvent "" SocketEvent.disconnect c4State).isConnected = false ∧
    (handleEvent "" SocketEvent.disconnect c4State).currentFrame
      = some "data:image/jpeg;base64,P1" ∧
    (handleEvent "" SocketEvent.disconnect c4State).clock.nextPlayTime = 5 ∧
    (handleEvent "" SocketEvent.disconnect c4State).clock.audioInitialized = true := by
  exact ⟨rfl, rfl, rfl, rfl⟩

/-- C5 (amended): while the clock is initialized, `nextPlayTime` is
non-decreasing across a scheduled chunk whenever the resync branch does
not fire, i.e. whenever the clock is at most `MAX_DRIFT` ahead of the
device; at a resync step it resets to `t_now + BUFFER_TIME + d` and may
decrease (see the counterexample). -/
theorem playback_clock_monotone_without_resync (now d : ℚ) (c : PlaybackClock)
    (hinit : c.audioInitialized = true) (hd : 0 ≤ d)
    (hnr : c.nextPlayTime ≤ now + MAX_DRIFT) :
    c.nextPlayTime ≤ (scheduleChunk now d c).clock.nextPlayTime := by
  rw [scheduleChunk_eq]
  by_cases h1 : c.audioInitialized = false ∨ c.nextPlayTime < now
  · rw [if_pos h1]
    show c.nextPlayTime ≤ now + BUFFER_TIME + d
    rcases h1 with h | h
    · rw [hinit] at h; cases h
    · unfold BUFFER_TIME; linarith
  · rw [if_neg h1, if_neg (not_lt.mpr hnr)]
    show c.nextPlayTime ≤ c.nextPlayTime + d
    linarith

/-- Witness for `playback_clock_monotone_without_resync`: an initialized
clock 50 ms ahead, receiving a 20 ms chunk. -/
theorem playback_clock_monotone_without_resync_witness :
    ({ nextPlayTime := 1 / 20, audioInitialized := true } : PlaybackClock).nextPlayTime ≤
      (scheduleChunk 0 (1 / 50)
        { nextPlayTime := 1 / 20, audioInitialized := true }).clock.nextPlayTime :=
  playback_clock_monotone_without_resync 0 (1 / 50)
    { nextPlayTime := 1 / 20, audioInitialized := true } rfl (by norm_num)
    (by norm_num [MAX_DRIFT])

/-- Helper: the clock value reached by the four 50 ms chunks of
`backlogTrace`, all arriving at device time 0 on a fresh clock. -/
theorem backlogTrace_clock :
    scheduleTrace { nextPlayTime := 0, audioInitialized := false } backlogTrace =
      { nextPlayTime := 1 / 4, audioInitialized := true } := by
  have s1 : scheduleChunk 0 (1 / 20) { nextPlayTime := 0, audioInitialized := false } =
      { startTime := 1 / 20,
        clock := { nextPlayTime := 1 / 10, audioInitialized := true } } := by
    rw [scheduleChunk_eq]; norm_num [BUFFER_TIME, MAX_DRIFT]
  have s2 : scheduleChunk 0 (1 / 20) { nextPlayTime := 1 / 10, audioInitialized := true } =
      { startTime := 1 / 10,
        clock := { nextPlayTime := 3 / 20, audioInitialized := true } } := by
    rw [scheduleChunk_eq]; norm_num [BUFFER_TIME, MAX_DRIFT]
  have s3 : scheduleChunk 0 (1 / 20) { nextPlayTime := 3 / 20, audioInitialized := true } =
      { startTime := 3 / 20,
        clock := { nextPlayTime := 1 / 5, audioInitialized := true } } := by
    rw [scheduleChunk_eq]; norm_num [BUFFER_TIME, MAX_DRIFT]
  have s4 : scheduleChunk 0 (1 / 20) { nextPlayTime := 1 / 5, audioInitialized := true } =
      { startTime := 1 / 5,
        clock := { nextPlayTime := 1 / 4, audioInitialized := true } } := by
    rw [scheduleChunk_eq]; norm_num [BUFFER_TIME, MAX_DRIFT]
  simp only [backlogTrace, scheduleTrace, s1, s2, s3, s4]

end LocalCast

namespace LocalCast

/-- Counterexample to C5 as stated: with the clock initialized throughout,
four 50 ms chunks at device time 0 drive `nextPlayTime` to `1/4` (250 ms
ahead); the fifth chunk fires the resync branch and `nextPlayTime` drops
to `1/10` — so `nextScheduledStartTime` is not monotonically
non-decreasing while playback is active. -/
theorem playback_clock_monotonicity_counterexample :
    (scheduleTrace { nextPlayTime := 0, audioInitialized := false } backlogTrace).audioInitialized
        = true ∧
    (scheduleTrace { nextPlayTime := 0, audioInitialized := false } backlogTrace).nextPlayTime
        = 1 / 4 ∧
    (scheduleChunk 0 (1 / 20)
      (scheduleTrace { nextPlayTime := 0, audioInitialized := false }
        backlogTrace)).clock.nextPlayTime = 1 / 10 ∧
    (scheduleChunk 0 (1 / 20)
      (scheduleTrace { nextPlayTime := 0, audioInitialized := false }
        backlogTrace)).clock.nextPlayTime
      < (scheduleTrace { nextPlayTime := 0, audioInitialized := false }
          backlogTrace).nextPlayTime := by
  have s5 : scheduleChunk 0 (1 / 20) { nextPlayTime := 1 / 4, audioInitialized := true } =
      { startTime := 1 / 20,
        clock := { nextPlayTime := 1 / 10, audioInitialized := true } } := by
    rw [scheduleChunk_eq]; norm_num [BUFFER_TIME, MAX_DRIFT]
  rw [backlogTrace_clock]
  rw [s5]
  refine ⟨rfl, rfl, rfl, ?_⟩
  norm_num

/-- C6: immediately after any chunk of duration `d` is scheduled at device
time `now` — whatever chunks came before — the clock satisfies
`nextPlayTime ≤ now + MAX_DRIFT + d`: the resync branch caps the
accumulated backlog. -/
theorem drift_ceiling_bound (c : PlaybackClock) (l : List (ℚ × ℚ)) (now d : ℚ) :
    (scheduleChunk now d (scheduleTrace c l)).clock.nextPlayTime ≤ now + MAX_DRIFT + d := by
  rw [scheduleChunk_eq]
  by_cases h1 : (scheduleTrace c l).audioInitialized = false ∨
      (scheduleTrace c l).nextPlayTime < now
  · rw [if_pos h1]
    show now + BUFFER_TIME + d ≤ now + MAX_DRIFT + d
    unfold BUFFER_TIME MAX_DRIFT
    linarith
  · rw [if_neg h1]
    by_cases h2 : now + MAX_DRIFT < (scheduleTrace c l).nextPlayTime
    · rw [if_pos h2]
      show now + BUFFER_TIME + d ≤ now + MAX_DRIFT + d
      unfold BUFFER_TIME MAX_DRIFT
      linarith
    · rw [if_neg h2]
      show (scheduleTrace c l).nextPlayTime + d ≤ now + MAX_DRIFT + d
      push_neg at h2
      linarith

end LocalCast

namespace LocalCast

/-- Helper: slicing to the last 50 after appending to an already-sliced
list equals slicing the full history after the append. -/
theorem sliceLast50_append {α : Type} (l : List α) (m : α) :
    sliceLast50 (sliceLast50 l ++ [m]) = sliceLast50 (l ++ [m]) := by
  unfold sliceLast50
  rcases le_or_lt l.length 50 with h | h
  · rw [Nat.sub_eq_zero_of_le h, List.drop_zero]
  · have hlen : (l.drop (l.length - 50)).length = 50 := by
      rw [List.length_drop]; omega
    rw [List.length_append, List.length_append, hlen]
    have h1 : 50 + [m].length - 50 = 1 := by simp
    rw [h1]
    rw [List.drop_append_of_le_length (by omega : 1 ≤ (l.drop (l.length - 50)).length)]
    rw [List.drop_drop]
    have h2 : l.length + [m].length - 50 = l.length - 49 := by
      simp only [List.length_singleton]; omega
    rw [h2]
    rw [List.drop_append_of_le_length (by omega : l.length - 49 ≤ l.length)]
    have h3 : l.length - 50 + 1 = l.length - 49 := by omega
    rw [h3]

/-- C10: for every sequence of `addMessage` calls starting from the empty
log, the stored list is exactly the last (at most 50) entries of the full
history, in order, and its length never exceeds 50. -/
theorem message_log_keeps_last_50 (calls : List (String × String × String)) :
    calls.foldl (fun acc c => addMessage acc c.1 c.2.1 c.2.2) [] =
      sliceLast50 (calls.map (fun c =>
        ({ text := c.1, type := c.2.1, timestamp := c.2.2 } : Message))) ∧
    (calls.foldl (fun acc c => addMessage acc c.1 c.2.1 c.2.2) []).length ≤ 50 := by
  have main : ∀ (cs : List (String × String × String)),
      cs.foldl (fun acc c => addMessage acc c.1 c.2.1 c.2.2) [] =
        sliceLast50 (cs.map (fun c =>
          ({ text := c.1, type := c.2.1, timestamp := c.2.2 } : Message))) := by
    intro cs
    induction cs using List.reverseRecOn with
    | nil => rfl
    | append_singleton init c ih =>
        rw [List.foldl_append, List.map_append, ih]
        show addMessage _ c.1 c.2.1 c.2.2 = _
        unfold addMessage
        rw [sliceLast50_append]
        rfl
  refine ⟨main calls, ?_⟩
  rw [main calls]
  unfold sliceLast50
  rw [List.length_drop]
  omega

/-- Helper: a frame event whose elapsed time is below the 1000 ms window
only bumps the counter; the window start and the published fps stay. -/
theorem onFrame_subwindow_eq (image : String) (w h sz : ℕ) (now : ℤ) (s : AppState)
    (hlt : now - s.fpsCounter.lastTime < 1000) :
    onFrame image w h sz now s =
      { s with
        currentFrame := some ("data:image/jpeg;base64," ++ image)
        frameInfoRef := { width := w, height := h, size := sz }
        fpsCounter := { count := s.fpsCounter.count + 1,
                        lastTime := s.fpsCounter.lastTime } } := by
  simp only [onFrame]
  split_ifs with hc
  · exact absurd hc (by omega)
  · rfl

/-- Helper: a frame event at or past the 1000 ms window publishes
`round(count * 1000 / elapsed)` and resets the counter and window start. -/
theorem onFrame_publish_eq (image : String) (w h sz : ℕ) (now : ℤ) (s : AppState)
    (hge : now - s.fpsCounter.lastTime ≥ 1000) :
    onFrame image w h sz now s =
      { s with
        currentFrame := some ("data:image/jpeg;base64," ++ image)
        frameInfoRef := { width := w, height := h, size := sz }
        fps := jsRound (((s.fpsCounter.count + 1 : ℕ) : ℚ) * 1000 /
                 ((now - s.fpsCounter.lastTime : ℤ) : ℚ))
        frameInfo := { width := w, height := h, size := sz }
        fpsCounter := { count := 0, lastTime := now } } := by
  simp only [onFrame]
  split_ifs
  rfl

/-- Helper: a run of sub-window frame events adds its length to the
counter and leaves the window start and published fps alone. -/
theorem runFrames_subwindow (evs : List FrameEv) : ∀ (s : AppState),
    (∀ e ∈ evs, e.now - s.fpsCounter.lastTime < 1000) →
    (runFrames s evs).fpsCounter =
      { count := s.fpsCounter.count + evs.length,
        lastTime := s.fpsCounter.lastTime } ∧
    (runFrames s evs).fps = s.fps := by
  induction evs with
  | nil =>
      intro s _
      exact ⟨rfl, rfl⟩
  | cons e rest ih =>
      intro s hall
      have he : e.now - s.fpsCounter.lastTime < 1000 := hall e (List.mem_cons_self e rest)
      have hrun : runFrames s (e :: rest) =
          runFrames (onFrame e.image e.width e.height e.size e.now s) rest := rfl
      set s2 := onFrame e.image e.width e.height e.size e.now s with hs2
      have hcount : s2.fpsCounter =
          { count := s.fpsCounter.count + 1, lastTime := s.fpsCounter.lastTime } := by
        rw [hs2, onFrame_subwindow_eq e.image e.width e.height e.size e.now s he]
      have hfps : s2.fps = s.fps := by
        rw [hs2, onFrame_subwindow_eq e.image e.width e.height e.size e.now s he]
      obtain ⟨ih1, ih2⟩ := ih s2 (by
        intro e' he'
        rw [hcount]
        exact hall e' (List.mem_cons_of_mem e he'))
      rw [hrun]
      constructor
      · rw [ih1, hcount]
        simp only [FpsCounter.mk.injEq, List.length_cons]
        exact ⟨by omega, trivial⟩
      · rw [ih2, hfps]

/-- C7: the frame handler bumps the throughput counter once per frame
event; once at least 1000 ms have elapsed since the last publication it
publishes `fps = round(count * 1000 / elapsedMs)` and resets both the
counter and the window start; consequently, for exactly `N = init.length
+ 1` frame events in a window opened with a zeroed counter, the published
value is `round(N * 1000 / elapsedMs)`. -/
theorem fps_publish_formula (s : AppState) (init : List FrameEv) (last : FrameEv)
    (h0 : s.fpsCounter.count = 0)
    (hinit : ∀ e ∈ init, e.now - s.fpsCounter.lastTime < 1000)
    (hlast : last.now - s.fpsCounter.lastTime ≥ 1000) :
    ((runFrames s (init ++ [last])).fps =
      jsRound (((init.length + 1 : ℕ) : ℚ) * 1000 /
        ((last.now - s.fpsCounter.lastTime : ℤ) : ℚ)) ∧
     (runFrames s (init ++ [last])).fpsCounter =
      { count := 0, lastTime := last.now }) ∧
    (∀ (image : String) (w h sz : ℕ) (now : ℤ) (s' : AppState),
      now - s'.fpsCounter.lastTime < 1000 →
      (onFrame image w h sz now s').fpsCounter =
        { count := s'.fpsCounter.count + 1, lastTime := s'.fpsCounter.lastTime } ∧
      (onFrame image w h sz now s').fps = s'.fps) ∧
    (∀ (image : String) (w h sz : ℕ) (now : ℤ) (s' : AppState),
      now - s'.fpsCounter.lastTime ≥ 1000 →
      (onFrame image w h sz now s').fps =
        jsRound (((s'.fpsCounter.count + 1 : ℕ) : ℚ) * 1000 /
          ((now - s'.fpsCounter.lastTime : ℤ) : ℚ)) ∧
      (onFrame image w h sz now s').fpsCounter = { count := 0, lastTime := now }) := by
  refine ⟨?_, ?_, ?_⟩
  · have hsplit : runFrames s (init ++ [last]) =
        runFrames (runFrames s init) [last] := by
      unfold runFrames
      rw [List.foldl_append]
    obtain ⟨hc, hf⟩ := runFrames_subwindow init s hinit
    have hmid : (runFrames s init).fpsCounter =
        { count := init.length, lastTime := s.fpsCounter.lastTime } := by
      rw [hc, h0]; simp
    have hge : last.now - (runFrames s init).fpsCounter.lastTime ≥ 1000 := by
      rw [hmid]; exact hlast
    have hfin := onFrame_publish_eq last.image last.width last.height last.size last.now
      (runFrames s init) hge
    have hlaststep : runFrames (runFrames s init) [last] =
        onFrame last.image last.width last.height last.size last.now (runFrames s init) := rfl
    rw [hsplit, hlaststep, hfin]
    constructor
    · show jsRound ((((runFrames s init).fpsCounter.count + 1 : ℕ) : ℚ) * 1000 /
          ((last.now - (runFrames s init).fpsCounter.lastTime : ℤ) : ℚ)) = _
      rw [hmid]
    · show ({ count := 0, lastTime := last.now } : FpsCounter) = _
      rfl
  · intro image w h sz now s' hlt
    rw [onFrame_subwindow_eq image w h sz now s' hlt]
    exact ⟨rfl, rfl⟩
  · intro image w h sz now s' hge
    rw [onFrame_publish_eq image w h sz now s' hge]
    exact ⟨rfl, rfl⟩

end LocalCast

namespace LocalCast

/-- Witness for `fps_publish_formula`: two frame events, at t = 500 ms and
t = 1000 ms, after a window opened at t = 0: the published fps is
`round(2 * 1000 / 1000) = 2` and the counter resets. -/
theorem fps_publish_formula_witness :
    (runFrames (initialAppState 0)
      ([{ image := "a", width := 1, height := 1, size := 1, now := 500 }] ++
       [{ image := "b", width := 1, height := 1, size := 1, now := 1000 }])).fps = 2 ∧
    (runFrames (initialAppState 0)
      ([{ image := "a", width := 1, height := 1, size := 1, now := 500 }] ++
       [{ image := "b", width := 1, height := 1, size := 1, now := 1000 }])).fpsCounter =
      { count := 0, lastTime := 1000 } := by
  have h := fps_publish_formula (initialAppState 0)
    [{ image := "a", width := 1, height := 1, size := 1, now := 500 }]
    { image := "b", width := 1, height := 1, size := 1, now := 1000 }
    rfl
    (by
      intro e he
      rw [List.mem_singleton] at he
      subst he
      norm_num [initialAppState])
    (by norm_num [initialAppState])
  refine ⟨?_, h.1.2⟩
  rw [h.1.1]
  norm_num [jsRound, initialAppState]

end LocalCast


namespace LocalCast

/-- Helper: `unlockAudio` never replaces an existing `AudioContext`; the
instance (identified by `id`) survives every call, whatever the device
does. -/
theorem unlockAudio_preserves_id (s : AppState) (f : ℕ) (st : CtxState)
    (r : ResumeOutcome) (c : AudioContextModel) (h : s.audioContext = some c) :
    ∃ c', (unlockAudio f st r s).audioContext = some c' ∧ c'.id = c.id := by
  obtain ⟨cid, cst⟩ := c
  cases cst
  case suspended =>
    cases r with
    | resolved st' =>
        refine ⟨{ id := cid, state := st' }, ?_, rfl⟩
        cases st' <;> simp [unlockAudio, h]
    | rejected =>
        exact ⟨{ id := cid, state := CtxState.suspended }, by simp [unlockAudio, h], rfl⟩
  case running =>
    exact ⟨{ id := cid, state := CtxState.running }, by simp [unlockAudio, h], rfl⟩
  case closed =>
    exact ⟨{ id := cid, state := CtxState.closed }, by simp [unlockAudio, h], rfl⟩

/-- Helper: whenever `unlockAudio` turns `audioUnlocked` on, the resulting
`AudioContext` reports the `running` state — the flag is set inside the
`resume().then` callback only after re-reading `ctx.state === 'running'`,
or synchronously when the context already reports `running`. -/
theorem unlockAudio_unlocked_running (s : AppState) (f : ℕ) (st : CtxState)
    (r : ResumeOutcome) (h : (unlockAudio f st r s).audioUnlocked = true) :
    s.audioUnlocked = true ∨
    ∃ c, (unlockAudio f st r s).audioContext = some c ∧ c.state = CtxState.running := by
  rcases hctx : s.audioContext with _ | ⟨cid, cst⟩
  · cases st
    case suspended =>
      cases r with
      | resolved st' =>
          cases st'
          case running =>
            exact Or.inr ⟨{ id := f, state := CtxState.running },
              by simp [unlockAudio, hctx], rfl⟩
          case suspended =>
            simp [unlockAudio, hctx] at h
            exact Or.inl h
          case closed =>
            simp [unlockAudio, hctx] at h
            exact Or.inl h
      | rejected =>
          simp [unlockAudio, hctx] at h
          exact Or.inl h
    case running =>
      exact Or.inr ⟨{ id := f, state := CtxState.running },
        by simp [unlockAudio, hctx], rfl⟩
    case closed =>
      simp [unlockAudio, hctx] at h
      exact Or.inl h
  · cases cst
    case suspended =>
      cases r with
      | resolved st' =>
          cases st'
          case running =>
            exact Or.inr ⟨{ id := cid, state := CtxState.running },
              by simp [unlockAudio, hctx], rfl⟩
          case suspended =>
            simp [unlockAudio, hctx] at h
            exact Or.inl h
          case closed =>
            simp [unlockAudio, hctx] at h
            exact Or.inl h
      | rejected =>
          simp [unlockAudio, hctx] at h
          exact Or.inl h
    case running =>
      exact Or.inr ⟨{ id := cid, state := CtxState.running },
        by simp [unlockAudio, hctx], rfl⟩
    case closed =>
      simp [unlockAudio, hctx] at h
      exact Or.inl h

/-- C8: `unlock()` is idempotent on the pipeline — a second call (any
call, in fact) reuses the existing `AudioContext` instance, creating one
only when absent — and `audioUnlocked` becomes true only once the device
reports the `running` state, never merely because activation was
requested. -/
theorem unlock_idempotent_and_confirm_running :
    (∀ (s : AppState) (f1 f2 : ℕ) (st1 st2 : CtxState) (r1 r2 : ResumeOutcome)
        (c : AudioContextModel),
      (unlockAudio f1 st1 r1 s).audioContext = some c →
      ∃ c', (unlockAudio f2 st2 r2 (unlockAudio f1 st1 r1 s)).audioContext = some c' ∧
        c'.id = c.id) ∧
    (∀ (s : AppState) (f : ℕ) (st : CtxState) (r : ResumeOutcome) (c : AudioContextModel),
      s.audioContext = some c →
      ∃ c', (unlockAudio f st r s).audioContext = some c' ∧ c'.id = c.id) ∧
    (∀ (s : AppState) (f : ℕ) (st : CtxState) (r : ResumeOutcome),
      (unlockAudio f st r s).audioUnlocked = true →
      s.audioUnlocked = true ∨
      ∃ c, (unlockAudio f st r s).audioContext = some c ∧ c.state = CtxState.running) :=
  ⟨fun s f1 f2 st1 st2 r1 r2 c h =>
      unlockAudio_preserves_id (unlockAudio f1 st1 r1 s) f2 st2 r2 c h,
   fun s f st r c h => unlockAudio_preserves_id s f st r c h,
   fun s f st r h => unlockAudio_unlocked_running s f st r h⟩

/-- Witness for `unlock_idempotent_and_confirm_running`: a fresh client
whose first `unlock()` creates a suspended context and whose `resume()`
resolves into `running`; the second call keeps instance 7, and the flag
flip is backed by the running state. -/
theorem unlock_idempotent_and_confirm_running_witness :
    (∃ c', (unlockAudio 8 CtxState.suspended (ResumeOutcome.resolved CtxState.running)
        (unlockAudio 7 CtxState.suspended (ResumeOutcome.resolved CtxState.running)
          (initialAppState 0))).audioContext = some c' ∧ c'.id = 7) ∧
    ((initialAppState 0).audioUnlocked = true ∨
      ∃ c, (unlockAudio 7 CtxState.suspended (ResumeOutcome.resolved CtxState.running)
        (initialAppState 0)).audioContext = some c ∧ c.state = CtxState.running) := by
  constructor
  · exact unlock_idempotent_and_confirm_running.1 (initialAppState 0) 7 8
      CtxState.suspended CtxState.suspended
      (ResumeOutcome.resolved CtxState.running) (ResumeOutcome.resolved CtxState.running)
      { id := 7, state := CtxState.running } (by simp [unlockAudio, initialAppState])
  · exact unlock_idempotent_and_confirm_running.2.2 (initialAppState 0) 7
      CtxState.suspended (ResumeOutcome.resolved CtxState.running)
      (by simp [unlockAudio, initialAppState])

end LocalCast

namespace LocalCast.H264

/-- Helper: the feed effect never touches the decoder slot, the id
counter or the destroyed log. -/
theorem feedEffect_preserves (p : Props) (s : ViewState) :
    (feedEffect p s).jmuxer = s.jmuxer ∧
    (feedEffect p s).nextJmuxerId = s.nextJmuxerId ∧
    (feedEffect p s).destroyedLog = s.destroyedLog := by
  rcases hp : p.currentFrame with _ | fr
  · simp [feedEffect, hp]
  · by_cases hi : fr.image = ""
    · simp [feedEffect, hp, hi]
    · rcases hj : s.jmuxer with _ | j
      · simp [feedEffect, hp, hi, hj]
      · simp [feedEffect, hp, hi, hj]

/-- Helper: the feed effect either leaves the log alone or appends
exactly one entry addressed to the currently live decoder. -/
theorem feedEffect_log (p : Props) (s : ViewState) :
    (feedEffect p s).feedLog = s.feedLog ∨
    ∃ j pay, s.jmuxer = some j ∧ (feedEffect p s).feedLog = s.feedLog ++ [(j, pay)] := by
  rcases hp : p.currentFrame with _ | fr
  · exact Or.inl (by simp [feedEffect, hp])
  · by_cases hi : fr.image = ""
    · exact Or.inl (by simp [feedEffect, hp, hi])
    · rcases hj : s.jmuxer with _ | j
      · exact Or.inl (by simp [feedEffect, hp, hi, hj])
      · exact Or.inr ⟨j, fr.image, rfl, by simp [feedEffect, hp, hi, hj]⟩

/-- Helper: the init effect is a no-op unless sharing, a current frame
and an empty decoder slot coincide. -/
theorem initEffect_not_applicable (p : Props) (ok : Bool) (s : ViewState)
    (h : ¬ (p.isSharing = true ∧ p.currentFrame.isSome = true ∧ s.jmuxer = none)) :
    initEffect p ok s = s := by
  unfold initEffect
  rw [if_neg h]

/-- Helper: a throwing `new JMuxer` leaves the state untouched. -/
theorem initEffect_fail (p : Props) (s : ViewState) :
    initEffect p false s = s := by
  unfold initEffect
  split_ifs with h1 h2
  · exact h2.elim
  · rfl
  · rfl

/-- Helper: when all creation conditions hold and construction succeeds,
the init effect installs the fresh decoder. -/
theorem initEffect_create (p : Props) (s : ViewState)
    (h : p.isSharing = true ∧ p.currentFrame.isSome = true ∧ s.jmuxer = none) :
    initEffect p true s =
      { s with
        jmuxer := some s.nextJmuxerId
        nextJmuxerId := s.nextJmuxerId + 1
        isH264Ready := true } := by
  unfold initEffect
  rw [if_pos h]
  rfl

/-- Helper: the init effect never touches the feed log. -/
theorem initEffect_feedLog (p : Props) (ok : Bool) (s : ViewState) :
    (initEffect p ok s).feedLog = s.feedLog := by
  unfold initEffect
  split_ifs <;> rfl

/-- Helper: the cleanup effect while sharing is a no-op. -/
theorem cleanupEffect_keep (p : Props) (s : ViewState) (h : p.isSharing = true) :
    cleanupEffect p s = s := by
  unfold cleanupEffect
  rw [if_neg (by simp [h])]

/-- Helper: the cleanup effect while not sharing empties the decoder slot
and records the destruction. -/
theorem cleanupEffect_stop (p : Props) (s : ViewState) (h : p.isSharing = false) :
    (cleanupEffect p s).jmuxer = none ∧
    (cleanupEffect p s).destroyedLog = s.destroyedLog ++ s.jmuxer.toList ∧
    (cleanupEffect p s).nextJmuxerId = s.nextJmuxerId := by
  unfold cleanupEffect
  rw [if_pos h]
  exact ⟨rfl, rfl, rfl⟩

/-- Helper: the cleanup effect never re-installs a decoder. -/
theorem cleanupEffect_jmuxer_none (p : Props) (s : ViewState) (h : s.jmuxer = none) :
    (cleanupEffect p s).jmuxer = none := by
  unfold cleanupEffect
  split_ifs <;> simp [h]

/-- Helper: the cleanup effect never touches the feed log. -/
theorem cleanupEffect_feedLog (p : Props) (s : ViewState) :
    (cleanupEffect p s).feedLog = s.feedLog := by
  unfold cleanupEffect
  split_ifs <;> rfl

end LocalCast.H264

namespace LocalCast.H264

/-- Helper: the init effect preserves decoder ownership — a fresh id is
allocated from the counter, so it can never collide with a destroyed
instance. -/
theorem ownershipInv_init (p : Props) (ok : Bool) (s : ViewState)
    (h : OwnershipInv s) : OwnershipInv (initEffect p ok s) := by
  obtain ⟨h1, h2⟩ := h
  unfold initEffect
  split_ifs with hc hok
  · constructor
    · intro j hj
      simp only [Option.some.injEq] at hj
      subst hj
      refine ⟨Nat.lt_succ_self _, fun hmem => ?_⟩
      exact absurd (h2 _ hmem) (lt_irrefl _)
    · intro j hmem
      exact Nat.lt_succ_of_lt (h2 j hmem)
  · exact ⟨h1, h2⟩
  · exact ⟨h1, h2⟩

/-- Helper: the cleanup effect preserves decoder ownership — the live
instance (if any) moves to the destroyed log. -/
theorem ownershipInv_cleanup (p : Props) (s : ViewState)
    (h : OwnershipInv s) : OwnershipInv (cleanupEffect p s) := by
  obtain ⟨h1, h2⟩ := h
  unfold cleanupEffect
  split_ifs with hc
  · constructor
    · intro j hj
      exact absurd hj (by simp)
    · intro j hmem
      rcases List.mem_append.mp hmem with hm | hm
      · exact h2 j hm
      · rcases hjm : s.jmuxer with _ | j'
        · rw [hjm] at hm; simp at hm
        · rw [hjm] at hm
          simp only [Option.toList_some, List.mem_singleton] at hm
          subst hm
          exact (h1 j (by rw [hjm])).1
  · exact ⟨h1, h2⟩

/-- Helper: the feed effect preserves decoder ownership. -/
theorem ownershipInv_feed (p : Props) (s : ViewState)
    (h : OwnershipInv s) : OwnershipInv (feedEffect p s) := by
  obtain ⟨e1, e2, e3⟩ := feedEffect_preserves p s
  unfold OwnershipInv at h ⊢
  rw [e1, e2, e3]
  exact h

/-- Helper: one re-render preserves decoder ownership. -/
theorem ownershipInv_renderStep (prev next : Props) (ok : Bool) (s : ViewState)
    (h : OwnershipInv s) : OwnershipInv (renderStep prev next ok s) := by
  simp only [renderStep]
  split_ifs <;>
    first
      | exact h
      | exact ownershipInv_init _ _ _ h
      | exact ownershipInv_cleanup _ _ h
      | exact ownershipInv_feed _ _ h
      | exact ownershipInv_cleanup _ _ (ownershipInv_init _ _ _ h)
      | exact ownershipInv_feed _ _ (ownershipInv_init _ _ _ h)
      | exact ownershipInv_feed _ _ (ownershipInv_cleanup _ _ h)
      | exact ownershipInv_feed _ _ (ownershipInv_cleanup _ _ (ownershipInv_init _ _ _ h))

/-- Helper: mounting preserves decoder ownership. -/
theorem ownershipInv_mount (p : Props) (ok : Bool) (s : ViewState)
    (h : OwnershipInv s) : OwnershipInv (mountStep p ok s) :=
  ownershipInv_feed _ _ (ownershipInv_cleanup _ _ (ownershipInv_init _ _ _ h))

/-- Helper: the initial component state owns no decoder. -/
theorem ownershipInv_initial : OwnershipInv initialViewState := by
  constructor
  · intro j hj
    exact absurd hj (by simp [initialViewState])
  · intro j hmem
    exact absurd hmem (by simp [initialViewState])

end LocalCast.H264

namespace LocalCast.H264

/-- Helper: at mount with no frame prop, no decoder is created. -/
theorem mount_no_decoder (sh ok : Bool) :
    (mountStep { isSharing := sh, currentFrame := none } ok initialViewState).jmuxer
      = none := by
  unfold mountStep
  have hinit : initEffect { isSharing := sh, currentFrame := none } ok initialViewState
      = initialViewState := by
    refine initEffect_not_applicable _ _ _ ?_
    rintro ⟨_, hb, _⟩
    simp at hb
  rw [hinit]
  have h3 : ∀ t : ViewState,
      (feedEffect { isSharing := sh, currentFrame := none } t).jmuxer = t.jmuxer :=
    fun t => (feedEffect_preserves _ t).1
  rw [h3]
  exact cleanupEffect_jmuxer_none _ _ rfl

/-- Helper: a render whose init effect cannot install a decoder leaves
the empty decoder slot empty. -/
theorem renderStep_no_create (prev next : Props) (ok : Bool) (s : ViewState)
    (hs : s.jmuxer = none)
    (hinit : ∀ t : ViewState, t.jmuxer = none → (initEffect next ok t).jmuxer = none) :
    (renderStep prev next ok s).jmuxer = none := by
  have hstep2 : ∀ t : ViewState, t.jmuxer = none → (cleanupEffect next t).jmuxer = none :=
    fun t ht => cleanupEffect_jmuxer_none next t ht
  have hstep3 : ∀ t : ViewState, t.jmuxer = none → (feedEffect next t).jmuxer = none := by
    intro t ht
    rw [(feedEffect_preserves next t).1]
    exact ht
  simp only [renderStep]
  split_ifs <;>
    first
      | exact hs
      | exact hinit _ hs
      | exact hstep2 _ hs
      | exact hstep3 _ hs
      | exact hstep2 _ (hinit _ hs)
      | exact hstep3 _ (hinit _ hs)
      | exact hstep3 _ (hstep2 _ hs)
      | exact hstep3 _ (hstep2 _ (hinit _ hs))

/-- Helper: a sharing → not-sharing transition always ends the render
with no live decoder. -/
theorem renderStep_stop_destroys (prev next : Props) (ok : Bool) (s : ViewState)
    (hp : prev.isSharing = true) (hn : next.isSharing = false) :
    (renderStep prev next ok s).jmuxer = none := by
  have hc2 : prev.isSharing ≠ next.isSharing := by
    rw [hp, hn]
    simp
  have hc1 : prev.isSharing ≠ next.isSharing ∨ prev.currentFrame ≠ next.currentFrame :=
    Or.inl hc2
  have hinit : initEffect next ok s = s := by
    refine initEffect_not_applicable _ _ _ ?_
    rintro ⟨ha, _, _⟩
    rw [hn] at ha
    cases ha
  have hcl : (cleanupEffect next s).jmuxer = none := (cleanupEffect_stop next s hn).1
  simp only [renderStep]
  rw [if_pos hc1, hinit, if_pos hc2]
  split_ifs with hc3
  · rw [(feedEffect_preserves next _).1]
    exact hcl
  · exact hcl

/-- Helper: one render appends at most one feed entry, addressed to the
instance that is live after the render. -/
theorem renderStep_feedLog (prev next : Props) (ok : Bool) (s : ViewState) :
    ∃ log', (renderStep prev next ok s).feedLog = s.feedLog ++ log' ∧
      (log' = [] ∨ ∃ j pay, log' = [(j, pay)] ∧
        (renderStep prev next ok s).jmuxer = some j) := by
  simp only [renderStep]
  set s1 := if prev.isSharing ≠ next.isSharing ∨ prev.currentFrame ≠ next.currentFrame
      then initEffect next ok s else s with hs1
  set s2 := if prev.isSharing ≠ next.isSharing then cleanupEffect next s1 else s1 with hs2
  have hlog1 : s1.feedLog = s.feedLog := by
    rw [hs1]
    split_ifs
    · exact initEffect_feedLog _ _ _
    · rfl
  have hlog2 : s2.feedLog = s.feedLog := by
    rw [hs2]
    split_ifs
    · exact (cleanupEffect_feedLog _ _).trans hlog1
    · exact hlog1
  by_cases c3 : prev.currentFrame ≠ next.currentFrame
  · rcases feedEffect_log next s2 with h | ⟨j, pay, hj, hfeed⟩
    · refine ⟨[], ?_, Or.inl rfl⟩
      rw [if_pos c3, h, hlog2, List.append_nil]
    · refine ⟨[(j, pay)], ?_, Or.inr ⟨j, pay, rfl, ?_⟩⟩
      · rw [if_pos c3, hfeed, hlog2]
      · rw [if_pos c3, (feedEffect_preserves next s2).1]
        exact hj
  · refine ⟨[], ?_, Or.inl rfl⟩
    rw [if_neg c3, hlog2, List.append_nil]

/-- Helper: with the creation conditions satisfied, a changed dependency
and a succeeding constructor, the render installs the fresh decoder. -/
theorem renderStep_creates (prev next : Props) (s : ViewState)
    (hs : s.jmuxer = none) (hsh : next.isSharing = true)
    (hfr : next.currentFrame.isSome = true)
    (hdep : prev.isSharing ≠ next.isSharing ∨ prev.currentFrame ≠ next.currentFrame) :
    (renderStep prev next true s).jmuxer = some s.nextJmuxerId := by
  have hinit := initEffect_create next s ⟨hsh, hfr, hs⟩
  have hkeep : ∀ t : ViewState, cleanupEffect next t = t :=
    fun t => cleanupEffect_keep next t hsh
  have hfeed : ∀ t : ViewState, (feedEffect next t).jmuxer = t.jmuxer :=
    fun t => (feedEffect_preserves next t).1
  simp only [renderStep]
  rw [if_pos hdep, hinit]
  split_ifs <;> simp only [hfeed, hkeep]

end LocalCast.H264

namespace LocalCast.H264

/-- Helper: decoder ownership holds after mounting and any sequence of
prop updates. -/
theorem ownershipInv_runView (p0 : Props) (ok0 : Bool) (upds : List (Props × Bool)) :
    OwnershipInv (runView p0 ok0 upds) := by
  unfold runView
  have main : ∀ (l : List (Props × Bool)) (acc : ViewState × Props), OwnershipInv acc.1 →
      OwnershipInv ((l.foldl
        (fun (a : ViewState × Props) pu => (renderStep a.2 pu.1 pu.2 a.1, pu.1)) acc).1) := by
    intro l
    induction l with
    | nil => intro acc h; exact h
    | cons u rest ih =>
        intro acc h
        exact ih _ (ownershipInv_renderStep _ _ _ _ h)
  exact main upds _ (ownershipInv_mount _ _ _ ownershipInv_initial)

/-- C9: the H.264 decoder lifecycle.  (i) At mount with no frame prop no
decoder exists (lazy creation, never at mount); (ii) no render installs a
decoder unless sharing is on and a frame is present; (iii) when sharing
stops, the render deterministically ends with the decoder destroyed;
(iv) each render appends at most one feed entry to the log — so payloads
are fed in arrival order — and the entry is addressed to the decoder live
after that render; (v) along every mount-plus-updates trace the live
decoder (the slot holds at most one) is an allocated, never-destroyed
instance, and every destroyed instance was allocated — recreate is always
fresh, never a revived or duplicated instance; (vi) a failed constructor
installs nothing (logged, not fatal: the state is unchanged and a later
render may create); (vii) with the conditions met and the constructor
succeeding, the fresh instance is installed. -/
theorem h264_decoder_lifecycle :
    (∀ (sh ok : Bool),
      (mountStep { isSharing := sh, currentFrame := none } ok initialViewState).jmuxer
        = none) ∧
    (∀ (prev next : Props) (ok : Bool) (s : ViewState), s.jmuxer = none →
      (next.isSharing = false ∨ next.currentFrame = none) →
      (renderStep prev next ok s).jmuxer = none) ∧
    (∀ (prev next : Props) (ok : Bool) (s : ViewState),
      prev.isSharing = true → next.isSharing = false →
      (renderStep prev next ok s).jmuxer = none) ∧
    (∀ (prev next : Props) (ok : Bool) (s : ViewState),
      ∃ log', (renderStep prev next ok s).feedLog = s.feedLog ++ log' ∧
        (log' = [] ∨ ∃ j pay, log' = [(j, pay)] ∧
          (renderStep prev next ok s).jmuxer = some j)) ∧
    (∀ (p0 : Props) (ok0 : Bool) (upds : List (Props × Bool)),
      OwnershipInv (runView p0 ok0 upds)) ∧
    (∀ (prev next : Props) (s : ViewState), s.jmuxer = none →
      (renderStep prev next false s).jmuxer = none) ∧
    (∀ (prev next : Props) (s : ViewState), s.jmuxer = none →
      next.isSharing = true → next.currentFrame.isSome = true →
      (prev.isSharing ≠ next.isSharing ∨ prev.currentFrame ≠ next.currentFrame) →
      (renderStep prev next true s).jmuxer = some s.nextJmuxerId) := by
  refine ⟨mount_no_decoder, ?_, ?_, ?_, ownershipInv_runView, ?_, ?_⟩
  · intro prev next ok s hs hno
    refine renderStep_no_create prev next ok s hs ?_
    intro t ht
    have hnapp : ¬ (next.isSharing = true ∧ next.currentFrame.isSome = true ∧
        t.jmuxer = none) := by
      rintro ⟨ha, hb, _⟩
      rcases hno with h | h
      · rw [h] at ha; cases ha
      · rw [h] at hb; simp at hb
    rw [initEffect_not_applicable _ _ _ hnapp]
    exact ht
  · intro prev next ok s hp hn
    exact renderStep_stop_destroys prev next ok s hp hn
  · intro prev next ok s
    exact renderStep_feedLog prev next ok s
  · intro prev next s hs
    refine renderStep_no_create prev next false s hs ?_
    intro t ht
    rw [initEffect_fail]
    exact ht
  · intro prev next s hs hsh hfr hdep
    exact renderStep_creates prev next s hs hsh hfr hdep

/-- Witness for `h264_decoder_lifecycle`: a stop-transition render
destroys the decoder, and a first-frame render while sharing (with a
working constructor) installs instance 0. -/
theorem h264_decoder_lifecycle_witness :
    (renderStep { isSharing := true, currentFrame := none }
      { isSharing := false, currentFrame := none } true initialViewState).jmuxer = none ∧
    (renderStep { isSharing := true, currentFrame := none }
      { isSharing := true, currentFrame := some { fid := 0, image := "AA" } }
      true initialViewState).jmuxer = some initialViewState.nextJmuxerId := by
  constructor
  · exact h264_decoder_lifecycle.2.2.1
      { isSharing := true, currentFrame := none }
      { isSharing := false, currentFrame := none } true initialViewState rfl rfl
  · exact h264_decoder_lifecycle.2.2.2.2.2.2
      { isSharing := true, currentFrame := none }
      { isSharing := true, currentFrame := some { fid := 0, image := "AA" } }
      initialViewState rfl rfl rfl (Or.inr (by simp))

end LocalCast.H264
